import Mathlib

/-!
Verification of the Cut_The_BS_Hackathon2025 speed-test client/server.

The Python sources (`src/Server/Server.py`, `src/Client/Client.py`) are
shallowly embedded: byte strings become `List Nat` (each entry `< 256`),
`struct.pack`/`struct.unpack` with `>`/`!` (big-endian) formats become
explicit big-endian byte serialisation, Python `int`/`float` arithmetic on
the measured quantities is modelled exactly over `ℚ`, and runtime
exceptions (`struct.error`, `ZeroDivisionError`, `ValueError`) become
`Option`/outcome values.  Pseudo-random payload bytes
(`random.randbytes(k)`) are modelled by their length: the accounting on
both sides depends only on payload lengths, never on payload contents.
-/

namespace SpeedTest

/-- `MAGIC_COOKIE = 0xabcddcba`, shared by `Server.py` and `Client.py`. -/
def MAGIC_COOKIE : Nat := 0xabcddcba

/-- `MESSAGE_TYPE_OFFER = 0x2`. -/
def MESSAGE_TYPE_OFFER : Nat := 0x2

/-- `MESSAGE_TYPE_REQUEST = 0x3`. -/
def MESSAGE_TYPE_REQUEST : Nat := 0x3

/-- `MESSAGE_TYPE_PAYLOAD = 0x4`. -/
def MESSAGE_TYPE_PAYLOAD : Nat := 0x4

/-- Big-endian serialisation of `v` into `w` bytes, as done by
`struct.pack` for fixed-width fields (`I` = 4 bytes, `B` = 1, `H` = 2,
`Q` = 8); values too large for the width are truncated mod `256^w`. -/
def beBytes : Nat → Nat → List Nat
  | 0, _ => []
  | w + 1, v => beBytes w (v / 256) ++ [v % 256]

/-- Big-endian value of a byte string, as read by `struct.unpack`. -/
def beVal (bs : List Nat) : Nat :=
  bs.foldl (fun a b => a * 256 + b) 0

theorem beBytes_length (w v : Nat) : (beBytes w v).length = w := by
  induction w generalizing v with
  | zero => rfl
  | succ k ih => simp [beBytes, ih]

theorem beVal_foldl (init : Nat) (bs : List Nat) :
    bs.foldl (fun a b => a * 256 + b) init = init * 256 ^ bs.length + beVal bs := by
  induction bs generalizing init with
  | nil => simp [beVal]
  | cons b rest ih =>
    simp only [List.foldl_cons, List.length_cons, beVal]
    rw [ih (init * 256 + b), ih (0 * 256 + b)]
    ring

theorem beVal_beBytes (w v : Nat) (h : v < 256 ^ w) : beVal (beBytes w v) = v := by
  induction w generalizing v with
  | zero =>
    simp only [pow_zero, Nat.lt_one_iff] at h
    simp [beBytes, beVal, h]
  | succ k ih =>
    have hdiv : v / 256 < 256 ^ k := by
      rw [Nat.div_lt_iff_lt_mul (by norm_num : (0:Nat) < 256)]
      calc v < 256 ^ (k + 1) := h
        _ = 256 ^ k * 256 := by ring
    simp only [beBytes, beVal, List.foldl_append, List.foldl_cons, List.foldl_nil]
    have := beVal_foldl 0 (beBytes k (v / 256))
    simp only [beVal] at this
    rw [show (beBytes k (v / 256)).foldl (fun a b => a * 256 + b) 0
          = beVal (beBytes k (v / 256)) from rfl, ih _ hdiv]
    have := Nat.div_add_mod v 256
    omega

/-! ## Offer frame (C3)

Server side (`Server._broadcast_offers`, Server.py lines 81-89):
`struct.pack('>IBHH', MAGIC_COOKIE, MESSAGE_TYPE_OFFER, actual_udp_port,
actual_tcp_port)`.

Client side (`Client.listen_for_offers`, Client.py line 52):
`struct.unpack('!IBHH', message)`; `!` and `>` are both big-endian, and
`struct.unpack` raises `struct.error` unless the buffer is exactly 9
bytes (modelled as `none`). -/

/-- The Offer packet built by `Server._broadcast_offers`. -/
def packOffer (udp_port tcp_port : Nat) : List Nat :=
  beBytes 4 MAGIC_COOKIE ++ beBytes 1 MESSAGE_TYPE_OFFER ++
    beBytes 2 udp_port ++ beBytes 2 tcp_port

/-- The client-side `struct.unpack('!IBHH', message)` of
`Client.listen_for_offers`: fails (raises `struct.error`, here `none`)
unless the message is exactly 9 bytes, else yields
`(magic_cookie, message_type, udp_port, tcp_port)`. -/
def unpackOffer (msg : List Nat) : Option (Nat × Nat × Nat × Nat) :=
  if msg.length = 9 then
    some (beVal (msg.take 4), beVal ((msg.drop 4).take 1),
          beVal ((msg.drop 5).take 2), beVal (msg.drop 7))
  else none

theorem packOffer_length (u t : Nat) : (packOffer u t).length = 9 := by
  simp [packOffer, beBytes_length]

theorem packOffer_eq (u t : Nat) :
    packOffer u t = [0xab, 0xcd, 0xdc, 0xba, 0x2,
      u / 256 % 256, u % 256, t / 256 % 256, t % 256] := by
  simp [packOffer, beBytes, MAGIC_COOKIE, MESSAGE_TYPE_OFFER]

/-- C3: the Offer frame is 9 bytes, marker then type `0x2` then
`udp_port` (2 bytes) then `tcp_port` (2 bytes), all big-endian on both
sides, and the client's decode of the server's encode returns the
original ports (round-trip) for all 16-bit port values. -/
theorem offer_roundtrip (u t : Nat) (hu : u < 65536) (ht : t < 65536) :
    (packOffer u t).length = 9 ∧
    unpackOffer (packOffer u t) =
      some (MAGIC_COOKIE, MESSAGE_TYPE_OFFER, u, t) := by
  refine ⟨packOffer_length u t, ?_⟩
  rw [unpackOffer, if_pos (packOffer_length u t), packOffer_eq]
  have hu' : u / 256 < 256 := by omega
  have ht' : t / 256 < 256 := by omega
  have h1 : u / 256 % 256 = u / 256 := Nat.mod_eq_of_lt hu'
  have h2 : t / 256 % 256 = t / 256 := Nat.mod_eq_of_lt ht'
  have hum := Nat.div_add_mod u 256
  have htm := Nat.div_add_mod t 256
  simp only [List.take, List.drop, beVal, List.foldl]
  refine congrArg some ?_
  refine Prod.ext ?_ (Prod.ext ?_ (Prod.ext ?_ ?_)) <;>
    simp [MAGIC_COOKIE, MESSAGE_TYPE_OFFER] <;> omega

/-- Witness for `offer_roundtrip` at ports 3000 and 4000. -/
theorem offer_roundtrip_witness :
    (3000 : Nat) < 65536 ∧ (4000 : Nat) < 65536 ∧
      ((packOffer 3000 4000).length = 9 ∧
        unpackOffer (packOffer 3000 4000) =
          some (MAGIC_COOKIE, MESSAGE_TYPE_OFFER, 3000, 4000)) :=
  ⟨by decide, by decide, offer_roundtrip 3000 4000 (by decide) (by decide)⟩

/-! ## Discovery listener (C5)

`Client.listen_for_offers` (Client.py lines 41-60): one loop iteration
receives a datagram and runs `struct.unpack('!IBHH', message)` with no
length check and no `try`/`except`; a datagram whose length is not
exactly 9 raises `struct.error`, which propagates out of
`listen_for_offers` (fatal).  A 9-byte datagram whose cookie or type is
wrong merely fails the `if`, leaving the discovery state untouched. -/

/-- The client's discovery state (`server_ip`, `tcp_port`, `udp_port`
fields of `Client`, all initialised to `None`). -/
structure DiscoveryState where
  server_ip : Option String
  tcp_port : Option Nat
  udp_port : Option Nat
deriving DecidableEq

/-- Result of one iteration of the `listen_for_offers` receive loop. -/
inductive ListenOutcome where
  /-- `struct.unpack` raised `struct.error`; nothing catches it. -/
  | fatal : ListenOutcome
  /-- Validation failed; loop continues with unchanged state. -/
  | keepWaiting : DiscoveryState → ListenOutcome
  /-- Offer accepted; state updated, socket closed, loop exits. -/
  | accepted : DiscoveryState → ListenOutcome
deriving DecidableEq

/-- One iteration of the `Client.listen_for_offers` loop on a received
datagram `message` from source IP `srcIp`. -/
def listenStep (st : DiscoveryState) (message : List Nat) (srcIp : String) :
    ListenOutcome :=
  match unpackOffer message with
  | none => ListenOutcome.fatal
  | some (magic_cookie, message_type, udp_port, tcp_port) =>
    if magic_cookie = MAGIC_COOKIE ∧ message_type = MESSAGE_TYPE_OFFER then
      ListenOutcome.accepted ⟨some srcIp, some tcp_port, some udp_port⟩
    else ListenOutcome.keepWaiting st

/-- C5 (bug exhibit): a too-short datagram (here the first 8 bytes of a
valid Offer) makes `struct.unpack` raise `struct.error`, uncaught —
fatal — whereas a full 9-byte datagram with a wrong marker is discarded
with the discovery state unchanged, as the claim describes. -/
theorem listener_short_frame_fatal :
    listenStep ⟨none, none, none⟩
        [0xab, 0xcd, 0xdc, 0xba, 0x2, 0x0, 0x50, 0x0] "10.0.0.7" =
      ListenOutcome.fatal
    ∧ listenStep ⟨none, none, none⟩
        [0, 0, 0, 0, 0x2, 0x0, 0x50, 0x0, 0x50] "10.0.0.7" =
      ListenOutcome.keepWaiting ⟨none, none, none⟩ := by
  constructor <;> rfl

/-! ## UDP server send routine (C2)

`Server._send_udp_data` (Server.py lines 175-208).  The pseudo-random
payload `random.randbytes(chunk_len)` is modelled by its length
`chunk_len`; client-side accounting only ever uses the length. -/

/-- `chunk_data_size = 1024` (Server.py line 185). -/
def chunk_data_size : Nat := 1024

/-- One UDP payload datagram as built by `Server._send_udp_data`:
header fields `total_segments`, `segment_idx`, plus a random payload of
`payload_len` bytes. -/
structure UdpSegment where
  total_segments : Nat
  segment_idx : Nat
  payload_len : Nat
deriving DecidableEq

/-- `total_segments = (file_size + chunk_data_size - 1) // chunk_data_size`
(Server.py line 186). -/
def totalSegments (file_size : Nat) : Nat :=
  (file_size + chunk_data_size - 1) / chunk_data_size

/-- The segment sent at index `idx` in `Server._send_udp_data`:
`start_index = idx * 1024`, `end_index = min(start_index + 1024,
file_size)`, payload of `end_index - start_index` random bytes. -/
def segAt (file_size idx : Nat) : UdpSegment :=
  let start_index := idx * chunk_data_size
  let end_index := min (start_index + chunk_data_size) file_size
  ⟨totalSegments file_size, idx, end_index - start_index⟩

/-- The full segment sequence of one `Server._send_udp_data` run:
`for segment_idx in range(total_segments)`. -/
def sendUdpData (file_size : Nat) : List UdpSegment :=
  (List.range (totalSegments file_size)).map (segAt file_size)

theorem sum_chunks (n : Nat) :
    ∀ T, T * 1024 ≤ n + 1023 →
      ((List.range T).map
        (fun idx => min (idx * 1024 + 1024) n - idx * 1024)).sum
        = min (T * 1024) n := by
  intro T
  induction T with
  | zero => simp
  | succ k ih =>
    intro h
    rw [List.range_succ, List.map_append, List.sum_append]
    simp only [List.map_cons, List.map_nil, List.sum_cons, List.sum_nil]
    rw [ih (by omega)]
    omega

/-- C2: for every `requested_bytes = n`, the server produces exactly
`ceil(n/1024)` segments, whose indices are exactly `0..total-1` in order
(each exactly once), every segment carries `total_segments =
ceil(n/1024)`, each payload has length `min(1024, n - idx*1024)`
(i.e. `min(1024, remaining)`), and the payload lengths sum to `n`. -/
theorem udp_segments_spec (n : Nat) :
    (sendUdpData n).length = (n + 1023) / 1024
    ∧ (sendUdpData n).map UdpSegment.segment_idx = List.range ((n + 1023) / 1024)
    ∧ (∀ s ∈ sendUdpData n, s.total_segments = (n + 1023) / 1024)
    ∧ (∀ s ∈ sendUdpData n, s.payload_len = min 1024 (n - s.segment_idx * 1024))
    ∧ ((sendUdpData n).map UdpSegment.payload_len).sum = n := by
  have htot : totalSegments n = (n + 1023) / 1024 := rfl
  refine ⟨?_, ?_, ?_, ?_, ?_⟩
  · simp [sendUdpData, htot]
  · rw [sendUdpData, List.map_map, htot]
    have hcomp : (UdpSegment.segment_idx ∘ segAt n) = id := by
      funext i; rfl
    rw [hcomp, List.map_id]
  · intro s hs
    rw [sendUdpData] at hs
    obtain ⟨i, _, rfl⟩ := List.mem_map.mp hs
    simpa [segAt] using htot
  · intro s hs
    rw [sendUdpData] at hs
    obtain ⟨i, _, rfl⟩ := List.mem_map.mp hs
    show min (i * chunk_data_size + chunk_data_size) n - i * chunk_data_size
        = min 1024 (n - i * chunk_data_size)
    rw [chunk_data_size]
    omega
  · rw [sendUdpData, List.map_map]
    have hcomp : (UdpSegment.payload_len ∘ segAt n)
        = fun idx => min (idx * 1024 + 1024) n - idx * 1024 := by
      funext i; rfl
    rw [hcomp, htot]
    have hd := Nat.div_add_mod (n + 1023) 1024
    have hm : (n + 1023) % 1024 < 1024 := Nat.mod_lt _ (by norm_num)
    rw [sum_chunks n ((n + 1023) / 1024) (by omega)]
    omega

/-- Witness for `udp_segments_spec` at `n = 5000` (5 segments,
lengths summing back to 5000). -/
theorem udp_segments_spec_witness :
    (sendUdpData 5000).length = (5000 + 1023) / 1024
    ∧ ((sendUdpData 5000).map UdpSegment.payload_len).sum = 5000 :=
  ⟨(udp_segments_spec 5000).1, (udp_segments_spec 5000).2.2.2.2⟩

/-! ## UDP payload frames and the client probe loop (C1, C6, C10)

Server side (`Server._send_udp_data`, Server.py lines 194-205): header
`struct.pack('>IBQQ', MAGIC_COOKIE, MESSAGE_TYPE_PAYLOAD,
total_segments, segment_idx)` followed by `random.randbytes(chunk_len)`.

Client side (`Client.udp_transfer`, Client.py lines 119-157): per
datagram, skip if shorter than 21 bytes; unpack `'>IBQQ'` from the first
21 bytes; skip unless cookie and type match; else add the payload length
to `total_received`, record `total_segs` as the last reported total and
insert `curr_seg` into the set of received segment indices. -/

/-- The 21-byte payload header built by `Server._send_udp_data`. -/
def packPayloadHeader (total_segments segment_idx : Nat) : List Nat :=
  beBytes 4 MAGIC_COOKIE ++ beBytes 1 MESSAGE_TYPE_PAYLOAD ++
    beBytes 8 total_segments ++ beBytes 8 segment_idx

theorem beBytes_magic : beBytes 4 MAGIC_COOKIE = [0xab, 0xcd, 0xdc, 0xba] := rfl

theorem beBytes_type_payload : beBytes 1 MESSAGE_TYPE_PAYLOAD = [0x4] := rfl

/-- `random.randbytes(len)` modelled by its length: a fixed byte string
of the same length (client accounting never looks at the contents). -/
def payloadBytes (len : Nat) : List Nat := List.replicate len 0

/-- The full datagram `header + payload` sent for segment `idx` of a
transfer of `file_size` bytes (Server.py line 205). -/
def serverDatagram (file_size idx : Nat) : List Nat :=
  packPayloadHeader (totalSegments file_size) idx ++
    payloadBytes ((segAt file_size idx).payload_len)

/-- All datagrams of one `Server._send_udp_data` run, in send order. -/
def serverDatagrams (file_size : Nat) : List (List Nat) :=
  (List.range (totalSegments file_size)).map (serverDatagram file_size)

/-- The accounting state of `Client.udp_transfer`'s receive loop:
`total_received`, `received_segments` (a set), and
`total_segments_reported` (`None` until a valid Payload frame arrives). -/
structure UdpProbeState where
  total_received : Nat
  received_segments : Finset Nat
  total_segments_reported : Option Nat
deriving DecidableEq

/-- Initial state (Client.py lines 115-117). -/
def initialProbeState : UdpProbeState := ⟨0, ∅, none⟩

/-- One iteration of the `Client.udp_transfer` receive loop on datagram
`data`: datagrams shorter than 21 bytes are skipped; the first 21 bytes
decode as `(cookie, msg_type, total_segs, curr_seg)`; frames whose
cookie or type is wrong are skipped (the code tests the negation
`cookie != MAGIC_COOKIE or msg_type != MESSAGE_TYPE_PAYLOAD`); otherwise
`total_received += len(payload)`, `total_segments_reported = total_segs`,
`received_segments.add(curr_seg)`. -/
def udpProcessDatagram (st : UdpProbeState) (data : List Nat) : UdpProbeState :=
  if data.length < 21 then st
  else if beVal (data.take 4) = MAGIC_COOKIE ∧
      beVal ((data.drop 4).take 1) = MESSAGE_TYPE_PAYLOAD then
    { total_received := st.total_received + (data.drop 21).length,
      received_segments := insert (beVal ((data.drop 13).take 8)) st.received_segments,
      total_segments_reported := some (beVal ((data.drop 5).take 8)) }
  else st

/-- The probe state after receiving the datagrams `ds` in order. -/
def udpRun (ds : List (List Nat)) : UdpProbeState :=
  ds.foldl udpProcessDatagram initialProbeState

/-- The success percentage computed at Client.py lines 149-157, with
Python's exact rational arithmetic modelled over `ℚ`:
if a valid Payload frame was seen, `100 - ((total - |set|)/total) * 100`
(raising `ZeroDivisionError`, here `none`, when the last reported total
is 0); else `100`. -/
def successPercent (st : UdpProbeState) : Option ℚ :=
  match st.total_segments_reported with
  | some total =>
    if total = 0 then none
    else some (100 - ((total : ℚ) - (st.received_segments.card : ℚ)) / (total : ℚ) * 100)
  | none => some 100

/-- UDP speed (Client.py line 147): guarded,
`(total_received * 8) / total_time if total_time > 0 else 0`. -/
def udpComputeSpeed (total_received : Nat) (total_time : ℚ) : ℚ :=
  if 0 < total_time then (total_received * 8) / total_time else 0

/-- TCP speed (Client.py line 90): `(total_received * 8) / total_time`
with no guard; Python raises `ZeroDivisionError` when `total_time` is 0,
modelled as `none`. -/
def tcpComputeSpeed (total_received : Nat) (total_time : ℚ) : Option ℚ :=
  if total_time = 0 then none
  else some ((total_received * 8) / total_time)

/-- A datagram that `Client.udp_transfer` accepts as a valid Payload
frame: at least 21 bytes, correct cookie, correct type tag. -/
def validPayloadFrame (d : List Nat) : Prop :=
  21 ≤ d.length ∧ beVal (d.take 4) = MAGIC_COOKIE ∧
    beVal ((d.drop 4).take 1) = MESSAGE_TYPE_PAYLOAD

instance : DecidablePred validPayloadFrame := fun _ => by
  rw [validPayloadFrame]; infer_instance

/-- Bytes a datagram adds to `total_received`: its payload length when
it is a valid Payload frame, 0 otherwise. -/
def payloadContribution (d : List Nat) : Nat :=
  if validPayloadFrame d then d.length - 21 else 0

theorem udpProcessDatagram_valid (st : UdpProbeState) (d : List Nat)
    (h : validPayloadFrame d) :
    udpProcessDatagram st d =
      { total_received := st.total_received + (d.length - 21),
        received_segments := insert (beVal ((d.drop 13).take 8)) st.received_segments,
        total_segments_reported := some (beVal ((d.drop 5).take 8)) } := by
  obtain ⟨hlen, hck, hty⟩ := h
  rw [udpProcessDatagram, if_neg (by omega), if_pos ⟨hck, hty⟩,
    List.length_drop]

theorem udpProcessDatagram_invalid (st : UdpProbeState) (d : List Nat)
    (h : ¬ validPayloadFrame d) :
    udpProcessDatagram st d = st := by
  rw [validPayloadFrame] at h
  push_neg at h
  rw [udpProcessDatagram]
  by_cases hlen : d.length < 21
  · rw [if_pos hlen]
  · rw [if_neg hlen, if_neg]
    rintro ⟨hck, hty⟩
    exact h (by omega) hck hty

theorem decomposePayloadDatagram (tot idx : Nat) (payload : List Nat) :
    packPayloadHeader tot idx ++ payload =
      0xab :: 0xcd :: 0xdc :: 0xba :: 0x4 ::
        (beBytes 8 tot ++ (beBytes 8 idx ++ payload)) := by
  simp [packPayloadHeader, beBytes_magic, beBytes_type_payload]

/-- Processing a well-formed server payload datagram updates the probe
state exactly as Client.py lines 139-141 describe. -/
theorem udpProcessDatagram_payload (st : UdpProbeState) (tot idx : Nat)
    (payload : List Nat) (htot : tot < 2 ^ 64) (hidx : idx < 2 ^ 64) :
    udpProcessDatagram st (packPayloadHeader tot idx ++ payload) =
      { total_received := st.total_received + payload.length,
        received_segments := insert idx st.received_segments,
        total_segments_reported := some tot } := by
  have hpow : (256 : Nat) ^ 8 = 2 ^ 64 := by norm_num
  have htot8 : tot < 256 ^ 8 := by rw [hpow]; exact htot
  have hidx8 : idx < 256 ^ 8 := by rw [hpow]; exact hidx
  have hlenT : (beBytes 8 tot).length = 8 := beBytes_length _ _
  have hlenI : (beBytes 8 idx).length = 8 := beBytes_length _ _
  rw [decomposePayloadDatagram]
  set d : List Nat := 0xab :: 0xcd :: 0xdc :: 0xba :: 0x4 ::
    (beBytes 8 tot ++ (beBytes 8 idx ++ payload)) with hd
  have hdlen : d.length = 21 + payload.length := by
    rw [hd]
    simp [hlenT, hlenI]
    omega
  have hck : beVal (d.take 4) = MAGIC_COOKIE := by rw [hd]; rfl
  have hty : beVal ((d.drop 4).take 1) = MESSAGE_TYPE_PAYLOAD := by rw [hd]; rfl
  have hdrop5 : d.drop 5 = beBytes 8 tot ++ (beBytes 8 idx ++ payload) := by
    rw [hd]; rfl
  have hdrop13 : d.drop 13 = beBytes 8 idx ++ payload := by
    rw [show (13 : Nat) = 5 + 8 from rfl, ← List.drop_drop, hdrop5,
      List.drop_left' hlenT]
  have hdrop21 : d.drop 21 = payload := by
    rw [show (21 : Nat) = 13 + 8 from rfl, ← List.drop_drop, hdrop13,
      List.drop_left' hlenI]
  have htakeTot : (d.drop 5).take 8 = beBytes 8 tot := by
    rw [hdrop5, List.take_left' hlenT]
  have htakeIdx : (d.drop 13).take 8 = beBytes 8 idx := by
    rw [hdrop13, List.take_left' hlenI]
  rw [udpProcessDatagram, if_neg (by omega), if_pos ⟨hck, hty⟩,
    htakeTot, htakeIdx, hdrop21, beVal_beBytes 8 tot htot8,
    beVal_beBytes 8 idx hidx8]

theorem udpRun_append (ds : List (List Nat)) (d : List Nat) :
    udpRun (ds ++ [d]) = udpProcessDatagram (udpRun ds) d := by
  simp [udpRun, List.foldl_append]

theorem total_received_foldl (st : UdpProbeState) (ds : List (List Nat)) :
    (ds.foldl udpProcessDatagram st).total_received
      = st.total_received + (ds.map payloadContribution).sum := by
  induction ds generalizing st with
  | nil => simp
  | cons d rest ih =>
    rw [List.foldl_cons, ih, List.map_cons, List.sum_cons]
    by_cases h : validPayloadFrame d
    · rw [udpProcessDatagram_valid st d h, payloadContribution, if_pos h]
      show st.total_received + (d.length - 21) + _ = _
      omega
    · rw [udpProcessDatagram_invalid st d h, payloadContribution, if_neg h]
      omega

theorem successPercent_some (st : UdpProbeState) (T : Nat)
    (h : st.total_segments_reported = some T) (h0 : T ≠ 0) :
    successPercent st
      = some (100 - ((T : ℚ) - (st.received_segments.card : ℚ)) / (T : ℚ) * 100) := by
  obtain ⟨tr, rs, tsr⟩ := st
  simp only at h
  subst h
  simp [successPercent, h0]

theorem payloadBytes_length (len : Nat) : (payloadBytes len).length = len :=
  List.length_replicate _ _

theorem foldl_map_singleton (st : UdpProbeState) (f : Nat → List Nat) (k : Nat) :
    (List.map f [k]).foldl udpProcessDatagram st = udpProcessDatagram st (f k) := rfl

theorem udpRun_serverDatagrams_prefix (n : Nat) (hn : totalSegments n < 2 ^ 64) :
    ∀ k, k ≤ totalSegments n →
      ((List.range k).map (serverDatagram n)).foldl udpProcessDatagram
          initialProbeState =
        ⟨((List.range k).map (fun idx => (segAt n idx).payload_len)).sum,
         Finset.range k,
         if k = 0 then none else some (totalSegments n)⟩ := by
  intro k
  induction k with
  | zero =>
    intro _
    simp [initialProbeState]
  | succ k ih =>
    intro hk
    have hsum : ((List.range (k + 1)).map
        (fun idx => (segAt n idx).payload_len)).sum
        = ((List.range k).map (fun idx => (segAt n idx).payload_len)).sum
          + (segAt n k).payload_len := by
      rw [List.range_succ, List.map_append, List.sum_append]
      rfl
    rw [hsum, List.range_succ, List.map_append, List.foldl_append, ih (by omega),
      foldl_map_singleton, serverDatagram,
      udpProcessDatagram_payload _ _ _ _ hn (by omega), payloadBytes_length,
      Finset.range_succ, if_neg (Nat.succ_ne_zero k)]


/-- C10: the byte count used for UDP throughput sums the payload length
of every datagram that decodes as a valid Payload frame, duplicates
included — appending `k` duplicate deliveries of one valid frame adds
its payload length `k` more times (not set-based, unlike the ratio). -/
theorem udp_bytes_count_duplicates (ds : List (List Nat)) :
    (udpRun ds).total_received = (ds.map payloadContribution).sum
    ∧ ∀ d : List Nat, validPayloadFrame d → ∀ k : Nat,
        (udpRun (ds ++ List.replicate k d)).total_received
          = (udpRun ds).total_received + k * (d.length - 21) := by
  have h1 : ∀ l : List (List Nat),
      (udpRun l).total_received = (l.map payloadContribution).sum := by
    intro l
    have h := total_received_foldl initialProbeState l
    simpa [udpRun, initialProbeState] using h
  refine ⟨h1 ds, fun d hd k => ?_⟩
  rw [h1, h1, List.map_append, List.sum_append, List.map_replicate,
    List.sum_replicate, payloadContribution, if_pos hd, smul_eq_mul]

/-- Witness for `udp_bytes_count_duplicates`: a 26-byte valid Payload
frame delivered once, then twice more, adds its 5 payload bytes thrice. -/
theorem udp_bytes_count_duplicates_witness :
    validPayloadFrame (packPayloadHeader 1 0 ++ payloadBytes 5)
    ∧ (udpRun ([packPayloadHeader 1 0 ++ payloadBytes 5]
          ++ List.replicate 2 (packPayloadHeader 1 0 ++ payloadBytes 5))).total_received
        = (udpRun [packPayloadHeader 1 0 ++ payloadBytes 5]).total_received
          + 2 * ((packPayloadHeader 1 0 ++ payloadBytes 5).length - 21) :=
  ⟨by decide, (udp_bytes_count_duplicates _).2 _ (by decide) 2⟩

/-- C1 (amended): when at least one valid Payload frame was observed and
the last reported total `T` is nonzero, the reported success percentage
is exactly `100·|unique segments|/T`, with no clamping; when
`|unique| ≤ T` this equals the claimed clamped formula
`100·(1 − max(0, T − |unique|)/T)` and lies in `[0, 100]`; and duplicate
deliveries of an already-recorded segment index never change it. -/
theorem success_ratio_unclamped (ds : List (List Nat)) (T : Nat)
    (hT : (udpRun ds).total_segments_reported = some T) (hT0 : T ≠ 0) :
    successPercent (udpRun ds)
        = some (100 * ((udpRun ds).received_segments.card : ℚ) / (T : ℚ))
    ∧ ((udpRun ds).received_segments.card ≤ T →
        successPercent (udpRun ds)
          = some (100 * (1 -
              max 0 ((T : ℚ) - ((udpRun ds).received_segments.card : ℚ)) / (T : ℚ)))
        ∧ ∃ q : ℚ, successPercent (udpRun ds) = some q ∧ 0 ≤ q ∧ q ≤ 100)
    ∧ ∀ e : List Nat, validPayloadFrame e →
        beVal ((e.drop 13).take 8) ∈ (udpRun ds).received_segments →
        beVal ((e.drop 5).take 8) = T →
        successPercent (udpRun (ds ++ [e])) = successPercent (udpRun ds) := by
  have hTQ : ((T : ℚ)) ≠ 0 := Nat.cast_ne_zero.mpr hT0
  have hTpos : (0 : ℚ) < (T : ℚ) := by
    have h := Nat.pos_of_ne_zero hT0
    exact_mod_cast h
  have hbase := successPercent_some (udpRun ds) T hT hT0
  have hqeq : (100 : ℚ)
        - ((T : ℚ) - ((udpRun ds).received_segments.card : ℚ)) / (T : ℚ) * 100
      = 100 * ((udpRun ds).received_segments.card : ℚ) / (T : ℚ) := by
    field_simp
    ring
  refine ⟨by rw [hbase, hqeq], ?_, ?_⟩
  · intro hcle
    have hcQ : ((udpRun ds).received_segments.card : ℚ) ≤ (T : ℚ) := by
      exact_mod_cast hcle
    have hc0 : (0 : ℚ) ≤ ((udpRun ds).received_segments.card : ℚ) := by positivity
    have hmax : max 0 ((T : ℚ) - ((udpRun ds).received_segments.card : ℚ))
        = (T : ℚ) - ((udpRun ds).received_segments.card : ℚ) :=
      max_eq_right (by linarith)
    refine ⟨?_, 100 * ((udpRun ds).received_segments.card : ℚ) / (T : ℚ),
      by rw [hbase, hqeq], by positivity, ?_⟩
    · rw [hbase, hmax]
      refine congrArg some ?_
      field_simp
      ring
    · rw [div_le_iff₀ hTpos]
      nlinarith
  · intro e he hmem htote
    rw [udpRun_append, udpProcessDatagram_valid _ e he, htote,
      Finset.insert_eq_self.mpr hmem,
      successPercent_some _ T rfl hT0, hbase]

/-- Witness for `success_ratio_unclamped`: one frame declaring 2 total
segments, index 0 received, gives `100·1/2 = 50%`. -/
theorem success_ratio_unclamped_witness :
    (udpRun [packPayloadHeader 2 0]).total_segments_reported = some 2
    ∧ successPercent (udpRun [packPayloadHeader 2 0])
        = some (100 * ((udpRun [packPayloadHeader 2 0]).received_segments.card : ℚ)
            / ((2 : Nat) : ℚ)) :=
  ⟨by decide, (success_ratio_unclamped [packPayloadHeader 2 0] 2 (by decide)
    (by decide)).1⟩

/-- C1 counterexample: two valid Payload frames declaring
`total_segments = 1` with distinct indices 0 and 1 make the probe report
200% — not the claimed clamped value `100·(1 − max(0, 1−2)/1) = 100`,
and above 100% — because Client.py line 152 subtracts without clamping. -/
theorem success_ratio_clamp_counterexample :
    successPercent (udpRun [packPayloadHeader 1 0, packPayloadHeader 1 1]) = some 200
    ∧ (200 : ℚ) ≠ 100 * (1 - max 0 ((1 : ℚ) - 2) / 1)
    ∧ ¬ ((200 : ℚ) ≤ 100) := by
  have hmax : max (0 : ℚ) ((1 : ℚ) - 2) = 0 := max_eq_left (by norm_num)
  refine ⟨?_, by rw [hmax]; norm_num, by norm_num⟩
  have hrep : (udpRun [packPayloadHeader 1 0, packPayloadHeader 1 1]).total_segments_reported
      = some 1 := by decide
  have hcard : (udpRun [packPayloadHeader 1 0, packPayloadHeader 1 1]).received_segments.card
      = 2 := by decide
  rw [successPercent_some _ 1 hrep one_ne_zero, hcard]
  norm_num

theorem foldl_all_invalid (st : UdpProbeState) (ds : List (List Nat))
    (h : ∀ d ∈ ds, ¬ validPayloadFrame d) :
    ds.foldl udpProcessDatagram st = st := by
  induction ds generalizing st with
  | nil => rfl
  | cons d rest ih =>
    rw [List.foldl_cons, udpProcessDatagram_invalid st d (h d (by simp)),
      ih st (fun e he => h e (by simp [he]))]

/-- C6: every probe run in which no received datagram decodes as a valid
Payload frame (malformed or foreign datagrams only, or nothing at all)
reports success 100% with `total_received = 0` and reported throughput
0, while a true zero-loss run — receiving every datagram of a server
transfer of `n ≥ 1` bytes — also reports success 100% but with
`total_received = n` and strictly positive reported throughput, so the
two cases are distinguishable in the reported data. -/
theorem no_payload_reports_100 (ds : List (List Nat))
    (hds : ∀ d ∈ ds, ¬ validPayloadFrame d)
    (n : Nat) (hn1 : 1 ≤ n) (hn : n < 2 ^ 64)
    (t : ℚ) (ht : 0 < t) :
    successPercent (udpRun ds) = some 100
    ∧ (udpRun ds).total_received = 0
    ∧ udpComputeSpeed (udpRun ds).total_received t = 0
    ∧ successPercent (udpRun (serverDatagrams n)) = some 100
    ∧ (udpRun (serverDatagrams n)).total_received = n
    ∧ 0 < udpComputeSpeed (udpRun (serverDatagrams n)).total_received t := by
  have hTpos : 1 ≤ totalSegments n := by
    rw [totalSegments, chunk_data_size]
    omega
  have hT64 : totalSegments n < 2 ^ 64 := by
    rw [totalSegments, chunk_data_size]
    omega
  have hfun : (fun idx => (segAt n idx).payload_len)
      = fun idx => min (idx * 1024 + 1024) n - idx * 1024 := by
    funext i; rfl
  have hT1024 : totalSegments n * 1024 ≤ n + 1023 := by
    rw [totalSegments, chunk_data_size]
    omega
  have hsum : ((List.range (totalSegments n)).map
      (fun idx => (segAt n idx).payload_len)).sum = n := by
    rw [hfun, sum_chunks n (totalSegments n) hT1024, totalSegments,
      chunk_data_size]
    omega
  have hstate : udpRun (serverDatagrams n)
      = ⟨n, Finset.range (totalSegments n), some (totalSegments n)⟩ := by
    rw [udpRun, serverDatagrams,
      udpRun_serverDatagrams_prefix n hT64 (totalSegments n) le_rfl, hsum,
      if_neg (by omega)]
  have hnQ : (0 : ℚ) < (n : ℚ) := by exact_mod_cast hn1
  have hnone : udpRun ds = initialProbeState := by
    rw [udpRun]
    exact foldl_all_invalid initialProbeState ds hds
  refine ⟨by rw [hnone]; rfl, by rw [hnone]; rfl, ?_, ?_, ?_, ?_⟩
  · rw [hnone, show initialProbeState.total_received = 0 from rfl]
    simp [udpComputeSpeed]
  · rw [hstate, successPercent_some _ (totalSegments n) rfl (by omega),
      Finset.card_range]
    norm_num
  · rw [hstate]
  · rw [hstate, udpComputeSpeed, if_pos ht]
    exact div_pos (by positivity) ht

/-- Witness for `no_payload_reports_100` at `n = 5000`, `t = 1`, on a
reception list holding one malformed (4-byte) and one wrong-type
(21-byte Offer-tagged) datagram, neither a valid Payload frame. -/
theorem no_payload_reports_100_witness :
    (∀ d ∈ [[0xab, 0xcd, 0xdc, 0xba],
        [0xab, 0xcd, 0xdc, 0xba, 0x2, 0, 0, 0, 0, 0, 0, 0, 1,
          0, 0, 0, 0, 0, 0, 0, 0]], ¬ validPayloadFrame d)
    ∧ (1 : Nat) ≤ 5000 ∧ (5000 : Nat) < 2 ^ 64 ∧ (0 : ℚ) < 1
    ∧ (udpRun (serverDatagrams 5000)).total_received = 5000
    ∧ successPercent (udpRun [[0xab, 0xcd, 0xdc, 0xba],
        [0xab, 0xcd, 0xdc, 0xba, 0x2, 0, 0, 0, 0, 0, 0, 0, 1,
          0, 0, 0, 0, 0, 0, 0, 0]]) = some 100 :=
  ⟨by decide, by norm_num, by norm_num, by norm_num,
    (no_payload_reports_100 [[0xab, 0xcd, 0xdc, 0xba],
        [0xab, 0xcd, 0xdc, 0xba, 0x2, 0, 0, 0, 0, 0, 0, 0, 1,
          0, 0, 0, 0, 0, 0, 0, 0]] (by decide) 5000 (by norm_num)
      (by norm_num) 1 (by norm_num)).2.2.2.2.1,
    (no_payload_reports_100 [[0xab, 0xcd, 0xdc, 0xba],
        [0xab, 0xcd, 0xdc, 0xba, 0x2, 0, 0, 0, 0, 0, 0, 0, 1,
          0, 0, 0, 0, 0, 0, 0, 0]] (by decide) 5000 (by norm_num)
      (by norm_num) 1 (by norm_num)).1⟩

/-! ## TCP throughput guard (C4)

Client.py line 90 computes `speed = (total_received * 8) / total_time`
with no guard, raising `ZeroDivisionError` when `total_time == 0` (the
exception is caught at line 93 and an error line printed — no throughput
of zero is ever reported).  The UDP path (line 147) is guarded. -/

/-- C4 (bug exhibit): at zero elapsed time the TCP probe's throughput
computation raises (`none`) rather than reporting zero, both for zero
and for nonzero byte counts, while the UDP computation is guarded and
yields 0. -/
theorem tcp_speed_unguarded :
    tcpComputeSpeed 0 0 = none
    ∧ tcpComputeSpeed 5000 0 = none
    ∧ udpComputeSpeed 0 0 = 0
    ∧ udpComputeSpeed 5000 0 = 0 := by
  refine ⟨rfl, rfl, ?_, ?_⟩ <;> simp [udpComputeSpeed]

/-! ## TCP request handling (C7, C9)

`Server._handle_tcp_client` (Server.py lines 113-141): the accumulated
request line is `strip()`ped and passed to `int()`; on success the loop
at lines 129-136 sends `min(4096, bytes_left)` pseudo-random bytes per
iteration until `bytes_left == 0`, then `finally` closes the socket; a
`ValueError` from `int()` is caught by the `except` at line 138, so the
connection is closed with nothing sent and the per-connection daemon
thread exits without affecting the process or sibling connections. -/

/-- Nonempty all-ASCII-digit strings parse to their decimal value. -/
def parseDigits : List Char → Option Nat
  | [] => none
  | cs =>
    if cs.all (fun c => c.isDigit) then
      some (cs.foldl (fun a c => a * 10 + (c.toNat - 48)) 0)
    else none

/-- Python's `int(requested_str)` at Server.py line 126, on the already
stripped line: an optional sign followed by one or more ASCII decimal
digits; anything else raises `ValueError` (`none`).  (CPython's
underscore separators and non-ASCII digits are not modelled.) -/
def pyInt (s : List Char) : Option Int :=
  match s with
  | '-' :: rest => (parseDigits rest).map (fun n => -(n : Int))
  | '+' :: rest => (parseDigits rest).map (fun n => (n : Int))
  | _ => (parseDigits s).map (fun n => (n : Int))

/-- The chunk sizes sent by the loop at Server.py lines 132-136:
`while bytes_left > 0: chunk_size = min(4096, bytes_left); ...`;
each chunk's `random.randbytes` payload is modelled by its size. -/
def sendChunks (bytes_left : Nat) : List Nat :=
  if _h : bytes_left = 0 then []
  else min 4096 bytes_left :: sendChunks (bytes_left - min 4096 bytes_left)
termination_by bytes_left
decreasing_by
  simp_wf
  omega

/-- Outcome of `Server._handle_tcp_client` once the request line is
assembled: the streamed chunk sizes followed by the `finally` close, or
the caught-`ValueError` path (connection closed, nothing sent, process
alive). -/
inductive TcpOutcome where
  | served : List Nat → TcpOutcome
  | badRequest : TcpOutcome
deriving DecidableEq

/-- `Server._handle_tcp_client` from the parsed line onward: Python's
`while bytes_left > 0` sends nothing when `int()` returned a negative
value, hence `Int.toNat`. -/
def handleTcpClient (line : List Char) : TcpOutcome :=
  match pyInt line with
  | none => TcpOutcome.badRequest
  | some k => TcpOutcome.served (sendChunks k.toNat)

theorem sendChunks_sum (m : Nat) : (sendChunks m).sum = m := by
  induction m using Nat.strong_induction_on with
  | _ m ih =>
    rw [sendChunks]
    by_cases h : m = 0
    · rw [dif_pos h, List.sum_nil, h]
    · rw [dif_neg h, List.sum_cons, ih (m - min 4096 m) (by omega)]
      omega

theorem sendChunks_bounds (m : Nat) : ∀ c ∈ sendChunks m, 0 < c ∧ c ≤ 4096 := by
  induction m using Nat.strong_induction_on with
  | _ m ih =>
    intro c hc
    rw [sendChunks] at hc
    by_cases h : m = 0
    · rw [dif_pos h] at hc
      simp at hc
    · rw [dif_neg h] at hc
      rcases List.mem_cons.mp hc with hch | hc2
      · subst hch
        omega
      · exact ih (m - min 4096 m) (by omega) c hc2

/-- C7: when the request line parses as a non-negative decimal `n`, the
server streams chunks of at most 4096 bytes each, whose sizes sum to
exactly `n`, then closes the stream — so a client reading until close
accumulates `bytes_received = n` exactly. -/
theorem tcp_request_served (line : List Char) (n : Int)
    (hp : pyInt line = some n) (hn : 0 ≤ n) :
    handleTcpClient line = TcpOutcome.served (sendChunks n.toNat)
    ∧ (sendChunks n.toNat).sum = n.toNat
    ∧ ((n.toNat : Int)) = n
    ∧ ∀ c ∈ sendChunks n.toNat, 0 < c ∧ c ≤ 4096 := by
  refine ⟨?_, sendChunks_sum _, Int.toNat_of_nonneg hn, sendChunks_bounds _⟩
  unfold handleTcpClient
  rw [hp]

/-- Witness for `tcp_request_served`: the line `5000` yields chunk
sizes summing to 5000. -/
theorem tcp_request_served_witness :
    pyInt ['5', '0', '0', '0'] = some 5000 ∧ (0 : Int) ≤ 5000
    ∧ handleTcpClient ['5', '0', '0', '0']
        = TcpOutcome.served (sendChunks (5000 : Int).toNat)
    ∧ (sendChunks (5000 : Int).toNat).sum = (5000 : Int).toNat :=
  ⟨by decide, by decide,
    (tcp_request_served ['5', '0', '0', '0'] 5000 (by decide) (by decide)).1,
    (tcp_request_served ['5', '0', '0', '0'] 5000 (by decide) (by decide)).2.1⟩

/-- C9: a request line that does not parse as a decimal integer makes
`int()` raise `ValueError`, caught by the handler's `except`: only this
connection fails, closed without any payload bytes sent, and the total
outcome value models that the process (and sibling connections) survive. -/
theorem tcp_bad_request_isolated (line : List Char)
    (h : pyInt line = none) :
    handleTcpClient line = TcpOutcome.badRequest := by
  unfold handleTcpClient
  rw [h]

/-- Witness for `tcp_bad_request_isolated` on the line `abc`. -/
theorem tcp_bad_request_isolated_witness :
    pyInt ['a', 'b', 'c'] = none
    ∧ handleTcpClient ['a', 'b', 'c'] = TcpOutcome.badRequest :=
  ⟨by decide, tcp_bad_request_isolated ['a', 'b', 'c'] (by decide)⟩

/-! ## Concurrent UDP send tasks (C8)

`Server._handle_udp_requests` (Server.py lines 163-170) spawns one
daemon thread per valid request, calling
`Server._send_udp_data(file_size, client_addr)`.  All of that routine's
transfer state — `total_segments`, the `segment_idx` loop variable,
`bytes_sent` — is local; the only shared object is the UDP socket, each
`sendto` being atomic.  We model an arbitrary interleaving of two such
tasks by a schedule of booleans picking which task performs its next
`sendto`; a finished task's turn is a no-op.  Payload bytes are
modelled by length as before, so a task's emissions are the pairs
`(client_addr, segment)`. -/

/-- The local state of one running `_send_udp_data` task: its private
arguments plus its loop position. -/
structure SendTask (A : Type) where
  file_size : Nat
  client_addr : A
  next_idx : Nat
deriving DecidableEq

/-- The datagram a task hands to the shared socket at its current loop
index. -/
def taskEmit {A : Type} (t : SendTask A) : A × UdpSegment :=
  (t.client_addr, segAt t.file_size t.next_idx)

/-- Interleaved execution of two concurrent send tasks sharing only the
socket: the trace of datagrams handed to the socket, in schedule order. -/
def runPair {A : Type} (t1 t2 : SendTask A) : List Bool → List (A × UdpSegment)
  | [] => []
  | true :: sched =>
    if t1.next_idx < totalSegments t1.file_size then
      taskEmit t1 :: runPair {t1 with next_idx := t1.next_idx + 1} t2 sched
    else runPair t1 t2 sched
  | false :: sched =>
    if t2.next_idx < totalSegments t2.file_size then
      taskEmit t2 :: runPair t1 {t2 with next_idx := t2.next_idx + 1} sched
    else runPair t1 t2 sched

theorem sendUdpData_length (f : Nat) :
    (sendUdpData f).length = totalSegments f := by
  simp [sendUdpData]

theorem sendUdpData_drop_cons (f i : Nat) (h : i < totalSegments f) :
    (sendUdpData f).drop i = segAt f i :: (sendUdpData f).drop (i + 1) := by
  have hl : i < (sendUdpData f).length := by
    rw [sendUdpData_length]; exact h
  rw [List.drop_eq_getElem_cons hl]
  congr 1
  simp [sendUdpData]

theorem runPair_proj_left {A : Type} [DecidableEq A] (a1 a2 : A)
    (hne : a1 ≠ a2) (f1 f2 : Nat) :
    ∀ (sched : List Bool) (i j : Nat),
      totalSegments f1 ≤ i + sched.count true →
      (runPair ⟨f1, a1, i⟩ ⟨f2, a2, j⟩ sched).filter
          (fun p => decide (p.1 = a1))
        = ((sendUdpData f1).drop i).map (fun s => (a1, s)) := by
  intro sched
  induction sched with
  | nil =>
    intro i j hcnt
    rw [List.count_nil] at hcnt
    rw [runPair, List.drop_of_length_le (by rw [sendUdpData_length]; omega)]
    rfl
  | cons b sched ih =>
    intro i j hcnt
    cases b with
    | true =>
      have hcnt' : totalSegments f1 ≤ (i + 1) + sched.count true := by
        rw [List.count_cons] at hcnt
        simp at hcnt
        omega
      simp only [runPair]
      by_cases hlt : i < totalSegments f1
      · rw [if_pos hlt, List.filter_cons_of_pos (by simp [taskEmit]),
          ih (i + 1) j hcnt', sendUdpData_drop_cons f1 i hlt, List.map_cons]
        rfl
      · rw [if_neg hlt]
        exact ih i j (by omega)
    | false =>
      have hcnt' : totalSegments f1 ≤ i + sched.count true := by
        rw [List.count_cons] at hcnt
        simp at hcnt
        omega
      simp only [runPair]
      by_cases hlt : j < totalSegments f2
      · rw [if_pos hlt,
          List.filter_cons_of_neg (by simp [taskEmit, Ne.symm hne])]
        exact ih i (j + 1) hcnt'
      · rw [if_neg hlt]
        exact ih i j hcnt'

theorem runPair_proj_right {A : Type} [DecidableEq A] (a1 a2 : A)
    (hne : a1 ≠ a2) (f1 f2 : Nat) :
    ∀ (sched : List Bool) (i j : Nat),
      totalSegments f2 ≤ j + sched.count false →
      (runPair ⟨f1, a1, i⟩ ⟨f2, a2, j⟩ sched).filter
          (fun p => decide (p.1 = a2))
        = ((sendUdpData f2).drop j).map (fun s => (a2, s)) := by
  intro sched
  induction sched with
  | nil =>
    intro i j hcnt
    rw [List.count_nil] at hcnt
    rw [runPair, List.drop_of_length_le (by rw [sendUdpData_length]; omega)]
    rfl
  | cons b sched ih =>
    intro i j hcnt
    cases b with
    | true =>
      have hcnt' : totalSegments f2 ≤ j + sched.count false := by
        rw [List.count_cons] at hcnt
        simp at hcnt
        omega
      simp only [runPair]
      by_cases hlt : i < totalSegments f1
      · rw [if_pos hlt, List.filter_cons_of_neg (by simp [taskEmit, hne])]
        exact ih (i + 1) j hcnt'
      · rw [if_neg hlt]
        exact ih i j hcnt'
    | false =>
      have hcnt' : totalSegments f2 ≤ (j + 1) + sched.count false := by
        rw [List.count_cons] at hcnt
        simp at hcnt
        omega
      simp only [runPair]
      by_cases hlt : j < totalSegments f2
      · rw [if_pos hlt, List.filter_cons_of_pos (by simp [taskEmit]),
          ih i (j + 1) hcnt', sendUdpData_drop_cons f2 j hlt, List.map_cons]
        rfl
      · rw [if_neg hlt]
        exact ih i j (by omega)

/-- C8: two concurrent UDP send tasks, each started with its own
`(requested_bytes, client_address)` and sharing only the socket, are
non-interfering: under every schedule that lets both loops finish, the
datagrams addressed to each client are exactly that task's solo
sequence `sendUdpData file_size` — with its own `total_segments` and
segment indices — independent of the other request and of the
interleaving (two-run noninterference/determinism of
`Server._send_udp_data`). -/
theorem udp_send_noninterference {A : Type} [DecidableEq A]
    (f1 f2 : Nat) (a1 a2 : A) (hne : a1 ≠ a2) (sched : List Bool)
    (h1 : totalSegments f1 ≤ sched.count true)
    (h2 : totalSegments f2 ≤ sched.count false) :
    (runPair ⟨f1, a1, 0⟩ ⟨f2, a2, 0⟩ sched).filter
        (fun p => decide (p.1 = a1))
      = (sendUdpData f1).map (fun s => (a1, s))
    ∧ (runPair ⟨f1, a1, 0⟩ ⟨f2, a2, 0⟩ sched).filter
        (fun p => decide (p.1 = a2))
      = (sendUdpData f2).map (fun s => (a2, s)) := by
  constructor
  · have h := runPair_proj_left a1 a2 hne f1 f2 sched 0 0 (by omega)
    rwa [List.drop_zero] at h
  · have h := runPair_proj_right a1 a2 hne f1 f2 sched 0 0 (by omega)
    rwa [List.drop_zero] at h

/-- Witness for `udp_send_noninterference`: a 1-byte and a 2049-byte
request to clients 0 and 1 under the schedule `[t, f, f, f]`. -/
theorem udp_send_noninterference_witness :
    (0 : Nat) ≠ 1
    ∧ totalSegments 1 ≤ ([true, false, false, false].count true)
    ∧ totalSegments 2049 ≤ ([true, false, false, false].count false)
    ∧ (runPair ⟨1, 0, 0⟩ ⟨2049, 1, 0⟩ [true, false, false, false]).filter
        (fun p => decide (p.1 = 0))
      = (sendUdpData 1).map (fun s => ((0 : Nat), s)) :=
  ⟨by decide, by decide, by decide,
    (udp_send_noninterference 1 2049 0 1 (by decide)
      [true, false, false, false] (by decide) (by decide)).1⟩

end SpeedTest
